import Mathlib

/-!
# Hotkey-driven recording-session controller — verification

Shallow embedding of the hotkey / push-to-talk session controller of
`src/main.ts` (functions `handleHotkeyDown`, `handleHotkeyUp`,
`startHotkeyMonitoring`, `stopHotkeyMonitoring`, `stopPushToTalk`).

The controller's module-level mutable variables (`lastFnKeyTime`,
`fnKeyPressed`, `pendingSingleTapTimeout`, `isHandsFreeModeActive`,
`pendingHandsFreeStop`, `pushToTalkService`) become fields of `CtrlState`.
Each key-event handler becomes a pure function `CtrlState → ... → CtrlState × List Ev`
where `Ev` records, in execution order, every notification sent to renderer
windows, every call into the recording backend, and every deferred
(`setImmediate` / promise-rejection) action, tagged as deferred.

The `PushToTalkService` backend itself is not part of the sources; its
observable flags (`active`, `transcribing`, `recordingStartTime`,
`startedFromSingleTap`, `isHandsFreeMode`) are stored in `Backend` and the
effect of its operations is modelled from the spec (see the doc comments on
`stopGraceful`, `hardStopped`, `started`).
-/

/-- Observable state of the recording backend (`PushToTalkService`).
The fields mirror the properties `main.ts` reads and writes on the service
object: `active`, `transcribing`, `recordingStartTime`, and the two flags the
controller stashes on the service (`startedFromSingleTap`, `isHandsFreeMode`). -/
structure Backend where
  active : Bool
  transcribing : Bool
  startedFromSingleTap : Bool
  isHandsFreeMode : Bool
  recordingStartTime : Option Nat
deriving DecidableEq

/-- Modelled from the spec: the backend is external to the sources; a graceful
`stop()` ends capture and hands the captured audio to transcription
(`active := false`, `transcribing := true`). -/
def stopGraceful (b : Backend) : Backend :=
  { b with active := false, transcribing := true }

/-- Modelled from the spec: `hardStop()` is an immediate, lossy cancellation of
capture and transcription; combined with the explicit assignments `main.ts`
performs right after calling it (`active = false`, `startedFromSingleTap = false`). -/
def hardStopped (b : Backend) : Backend :=
  { b with active := false, transcribing := false,
           startedFromSingleTap := false, recordingStartTime := none }

/-- Modelled from the spec: a successful `start()` opens capture
(`active := true`) and records the capture-start timestamp. -/
def started (b : Backend) (t : Nat) : Backend :=
  { b with active := true, recordingStartTime := some t }

/-- Notifications the controller sends to renderer windows
(`webContents.send` channel names). -/
inductive Notif where
  | pttStart
  | pttStop
  | pttCancel
  | transcriptionComplete
  | dictationStart
  | dictationStop
  | recStatus (recording : Bool) (active : Bool)
  | fnKeyState (b : Bool)
deriving DecidableEq

/-- Send targets used by `main.ts`: the waveform window, the dashboard window,
or `BrowserWindow.getAllWindows()`. -/
inductive Target where
  | waveform
  | dashboard
  | all
deriving DecidableEq

/-- Calls into the recording backend. `start` carries whether this particular
start attempt succeeds (the promise resolves) or fails (it rejects). -/
inductive BCall where
  | start (ok : Bool)
  | stop
  | hardStop
deriving DecidableEq

/-- One observable action of the controller, in execution order.
`deferredCall` / `deferredSend` are actions scheduled off the input-handling
path (`setImmediate`, promise `.catch`); `sleep` is an awaited `setTimeout`;
`complete` is the backend's asynchronous transcription-completed signal;
`dictationMode` is `setDictationMode`; `showWf` shows the waveform window. -/
inductive Ev where
  | send (tgt : Target) (n : Notif)
  | deferredSend (tgt : Target) (n : Notif)
  | call (c : BCall)
  | deferredCall (c : BCall)
  | sleep (ms : Nat)
  | complete
  | dictationMode (b : Bool)
  | showWf
deriving DecidableEq

/-- The controller's module-level mutable state in `main.ts`, plus the window
availability and the `showWaveform` setting the handlers read. -/
structure CtrlState where
  lastFnKeyTime : Nat
  fnKeyPressed : Bool
  pendingSingleTap : Bool
  isHandsFreeModeActive : Bool
  pendingHandsFreeStop : Bool
  svc : Option Backend
  waveform : Bool
  dashboard : Bool
  showWaveformSetting : Bool
deriving DecidableEq

/-- `main.ts` 894–924: the immediate UI feedback block at the top of
`handleHotkeyDown` — show the waveform (when the setting allows), send
`push-to-talk-start` and `recording-status{true,true}` to the waveform window
and, nested inside that branch, `fn-key-state-change`/`recording-status` to the
dashboard window. -/
def uiFeedbackDown (s : CtrlState) : List Ev :=
  if s.waveform then
    (if s.showWaveformSetting then [Ev.showWf] else []) ++
    [Ev.send .waveform .pttStart, Ev.send .waveform (.recStatus true true)] ++
    (if s.dashboard then
      [Ev.send .dashboard (.fnKeyState true), Ev.send .dashboard (.recStatus true true)]
     else [])
  else []

/-- `main.ts` 930–943: first half of the hands-free exit branch, up to and
including the `await pushToTalkService.stop()` suspension point:
`pendingHandsFreeStop := true`, `isHandsFreeModeActive := false`, and a
graceful `stop()` when the backend is active or transcribing. -/
def handsFreeExitBegin (s : CtrlState) : CtrlState × List Ev :=
  match s.svc with
  | some b =>
    if b.active || b.transcribing then
      ({ s with pendingHandsFreeStop := true, isHandsFreeModeActive := false,
                svc := some (stopGraceful b) }, [Ev.call .stop])
    else
      ({ s with pendingHandsFreeStop := true, isHandsFreeModeActive := false }, [])
  | none =>
      ({ s with pendingHandsFreeStop := true, isHandsFreeModeActive := false }, [])

/-- `main.ts` 944–970: second half of the hands-free exit branch, after the
`await` returns: clear the service's `isHandsFreeMode` flag, send
`dictation-stop`, `setDictationMode(false)`, reset `lastFnKeyTime` and
`pendingHandsFreeStop`. -/
def handsFreeExitFinish (s : CtrlState) : CtrlState × List Ev :=
  ({ s with svc := s.svc.map (fun b => { b with isHandsFreeMode := false }),
            lastFnKeyTime := 0, pendingHandsFreeStop := false },
   (if s.waveform then [Ev.send .waveform .dictationStop] else []) ++
   [Ev.dictationMode false])

/-- `main.ts` 991–1010: the double-tap branch's cancellation phase, up to and
including the awaited 10 ms buffer. When the backend is active, transcribing,
or flagged `startedFromSingleTap`, the hard stop of the first optimistic
session is scheduled via `setImmediate` (recorded as `deferredCall .hardStop`;
its effects land while the handler is suspended on the buffer) and
`push-to-talk-cancel` / `transcription-complete` are sent, then the handler
suspends on `await setTimeout(10)` — the suspension point at which other key
events can be processed. When the guard is false nothing happens and the
handler does not suspend here. -/
def doubleTapCancelPhase (s : CtrlState) : CtrlState × List Ev :=
  let guard :=
    match s.svc with
    | some b => b.active || b.transcribing || b.startedFromSingleTap
    | none => false
  if guard then
    ({ s with svc := s.svc.map hardStopped },
     (if s.waveform then
       [Ev.send .waveform .pttCancel, Ev.send .waveform .transcriptionComplete]
      else []) ++ [Ev.deferredCall .hardStop, Ev.sleep 10])
  else (s, [])

/-- `main.ts` 1018–1055: the double-tap branch's continuation after the
buffer: enter hands-free mode (`isHandsFreeModeActive := true`, service
`isHandsFreeMode := true`), show the waveform when the setting allows, send
`dictation-start`, reset `lastFnKeyTime`, and await the new session's
`start()` — a rejection is caught locally, resetting the hands-free flags and
sending `dictation-stop`; `setDictationMode(true)` runs in either case. The
continuation reads the global state as it stands when the handler resumes. -/
def doubleTapResumePhase (s : CtrlState) (t : Nat) (ok : Bool) : CtrlState × List Ev :=
  let s2 : CtrlState :=
    { s with isHandsFreeModeActive := true,
             svc := s.svc.map (fun b => { b with isHandsFreeMode := true }),
             lastFnKeyTime := 0 }
  let e2 := (if s.showWaveformSetting && s.waveform then [Ev.showWf] else []) ++
            (if s.waveform then [Ev.send .waveform .dictationStart] else [])
  let p3 :=
    match s2.svc with
    | some b =>
      if ok then
        ({ s2 with svc := some (started b t) }, [Ev.call (.start true)])
      else
        ({ s2 with isHandsFreeModeActive := false,
                   svc := some { b with isHandsFreeMode := false } },
         [Ev.call (.start false)] ++
         (if s.waveform then [Ev.send .waveform .dictationStop] else []))
    | none => (s2, ([] : List Ev))
  (p3.1, e2 ++ p3.2 ++ [Ev.dictationMode true])

/-- `main.ts` 984–1056: the whole double-tap branch as executed when no other
key event is delivered during the awaited buffer: the cancellation phase
followed immediately by the resumed continuation. -/
def doubleTapBranch (s : CtrlState) (t : Nat) (ok : Bool) : CtrlState × List Ev :=
  let p1 := doubleTapCancelPhase s
  let p2 := doubleTapResumePhase p1.1 t ok
  (p2.1, p1.2 ++ p2.2)

/-- `main.ts` 1058–1172: the single-tap fall-through. Record the press time,
set `fnKeyPressed`, broadcast `fn-key-state-change`; then, if the backend is
neither active nor transcribing, start it immediately (a rejected `start()` is
handled by a deferred `.catch` sending `push-to-talk-cancel`), otherwise treat
the press as a re-press cancel: synchronous `hardStop()`, `active := false`,
`push-to-talk-cancel` and `transcription-complete`. Finally the 250 ms
single-tap timeout is armed. -/
def singleTapBranch (s : CtrlState) (t : Nat) (ok : Bool) : CtrlState × List Ev :=
  let s1 := { s with lastFnKeyTime := t, fnKeyPressed := true }
  let e1 := (if s.dashboard then [Ev.send .dashboard (.fnKeyState true)] else []) ++
            [Ev.send .all (.fnKeyState true)]
  let activeOrT :=
    match s.svc with
    | some b => b.active || b.transcribing
    | none => false
  if activeOrT then
    let p2 :=
      match s1.svc with
      | some b =>
        ({ s1 with svc := some { b with active := false, transcribing := false,
                                        recordingStartTime := none } },
         [Ev.call .hardStop] ++
         (if s.waveform then
           [Ev.send .waveform .pttCancel, Ev.send .waveform .transcriptionComplete]
          else []))
      | none => (s1, ([] : List Ev))
    ({ p2.1 with pendingSingleTap := true }, e1 ++ p2.2)
  else
    let e2 := (if s.showWaveformSetting && s.waveform then [Ev.showWf] else []) ++
              (if s.waveform then [Ev.send .waveform .pttStart] else [])
    let p3 :=
      match s1.svc with
      | some b =>
        if ok then
          ({ s1 with svc := some (started { b with startedFromSingleTap := true } t) },
           [Ev.call (.start true)])
        else
          ({ s1 with svc := some { b with startedFromSingleTap := true } },
           [Ev.call (.start false)] ++
           (if s.waveform then [Ev.deferredSend .waveform .pttCancel] else []))
      | none => (s1, ([] : List Ev))
    ({ p3.1 with pendingSingleTap := true }, e1 ++ e2 ++ p3.2)

/-- `main.ts` 876–1173, `handleHotkeyDown`, as one step of the serialized
schedule: `t` is `Date.now()` at the press, `ok` is whether the backend
`start()` issued on this path (if any) succeeds. Presses observed while
`pendingHandsFreeStop` is set are dropped before any effect; otherwise the
immediate UI feedback fires, then the hands-free-exit / double-tap /
single-tap branch. This function models the handler run to completion with
no other key event delivered at its suspension points (the awaited stop of
the hands-free exit, the double-tap branch's awaited buffer and `start()`);
backend `start()` completions are applied at the end of the handler.
Re-entrant schedules are modelled from the split pieces: `handsFreeExitBegin`
/ `handsFreeExitFinish` and `doubleTapCancelPhase` / `doubleTapResumePhase`
(see `reentrantDoubleTapSched` for an interleaving the serialized schedule
excludes). -/
def handleHotkeyDown (s : CtrlState) (t : Nat) (ok : Bool) : CtrlState × List Ev :=
  let dt := t - s.lastFnKeyTime
  if s.pendingHandsFreeStop then (s, [])
  else
    let ui := uiFeedbackDown s
    if s.isHandsFreeModeActive then
      if s.pendingHandsFreeStop then (s, ui)
      else
        let p1 := handsFreeExitBegin s
        let p2 := handsFreeExitFinish p1.1
        (p2.1, ui ++ p1.2 ++ p2.2)
    else
      let s' := { s with pendingSingleTap := false }
      if 0 < s.lastFnKeyTime && dt < 600 && 20 < dt then
        let p := doubleTapBranch s' t ok
        (p.1, ui ++ p.2)
      else
        let p := singleTapBranch s' t ok
        (p.1, ui ++ p.2)

/-- `main.ts` 1175–1261, `handleHotkeyUp`: clear `fnKeyPressed`, then —
before any session state is examined — send `push-to-talk-stop` and
`recording-status{false,false}` to the waveform window and
`fn-key-state-change`/`recording-status{false,false}` to the dashboard and all
windows; clear `startedFromSingleTap`; skip the release when hands-free mode
is active or a hands-free stop is pending (the pending flag is cleared by a
100 ms timer, applied at settle); otherwise, when the backend is active and
has a recorded `recordingStartTime`, send `push-to-talk-stop` again and issue
the graceful `stop()` (`stopPushToTalk`, `main.ts` 384–400). -/
def handleHotkeyUp (s : CtrlState) : CtrlState × List Ev :=
  let e1 := (if s.waveform then
              [Ev.send .waveform .pttStop, Ev.send .waveform (.recStatus false false)]
             else []) ++
            (if s.dashboard then [Ev.send .dashboard (.fnKeyState false)] else []) ++
            [Ev.send .all (.fnKeyState false), Ev.send .all (.recStatus false false)]
  let s2 : CtrlState :=
    { s with fnKeyPressed := false,
             svc := s.svc.map (fun b => { b with startedFromSingleTap := false }) }
  if s.isHandsFreeModeActive || s.pendingHandsFreeStop then
    ({ s2 with pendingHandsFreeStop := false }, e1)
  else
    match s2.svc with
    | some b =>
      if b.active && b.recordingStartTime.isSome then
        ({ s2 with svc := some (stopGraceful b) },
         e1 ++ (if s.waveform then [Ev.send .waveform .pttStop] else []) ++ [Ev.call .stop])
      else (s2, e1)
    | none => (s2, e1)

/-- Modelled from the spec: the backend's asynchronous transcription
completion (the `isTranscribing=false` callback); it clears `transcribing`
and the recorded start time. A no-op when no transcription is in flight. -/
def transcriptionDone (s : CtrlState) : CtrlState × List Ev :=
  match s.svc with
  | some b =>
    if b.transcribing then
      ({ s with svc := some { b with transcribing := false, recordingStartTime := none } },
       [Ev.complete])
    else (s, [])
  | none => (s, [])

/-- Events arriving at the controller's serialization point: key presses
(with timestamp and the fate of any `start()` they issue), key releases, and
backend transcription completions. -/
inductive KEvent where
  | down (t : Nat) (ok : Bool)
  | up
  | done
deriving DecidableEq

/-- One serialized controller step. -/
def step (s : CtrlState) : KEvent → CtrlState × List Ev
  | .down t ok => handleHotkeyDown s t ok
  | .up => handleHotkeyUp s
  | .done => transcriptionDone s

/-- Process a sequence of events, accumulating the emitted actions. -/
def run (s : CtrlState) : List KEvent → CtrlState × List Ev
  | [] => (s, [])
  | e :: es =>
    let p := step s e
    let q := run p.1 es
    (q.1, p.2 ++ q.2)

/-- The idle backend at process start. -/
def b0 : Backend :=
  { active := false, transcribing := false, startedFromSingleTap := false,
    isHandsFreeMode := false, recordingStartTime := none }

/-- Initial controller state once monitoring is active: all flags clear, the
backend idle, waveform and dashboard windows present, waveform enabled. -/
def s0 : CtrlState :=
  { lastFnKeyTime := 0, fnKeyPressed := false, pendingSingleTap := false,
    isHandsFreeModeActive := false, pendingHandsFreeStop := false,
    svc := some b0, waveform := true, dashboard := true, showWaveformSetting := true }

/-- One re-entrant schedule of the asynchronous `handleHotkeyDown`, exhibiting
the suspension at the double-tap branch's awaited 10 ms buffer
(`main.ts` 1009). Press 1 at `t1` is processed to completion (its `start()`
settles). Press 2 at `t2` runs from the top of the handler — UI feedback,
single-tap-timeout clear (`pendingSingleTap := false`), double-tap window
test at `main.ts` 984 — and, its guard being satisfied, executes the
cancellation phase and suspends on the buffer. Press 3 at `t3` is delivered
during that buffer and its handler runs to completion: `lastFnKeyTime` and
`isHandsFreeModeActive` are only updated after the buffer
(`main.ts` 1020/1033), so press 3 still sees the pre-double-tap values.
Press 2's continuation then resumes on whatever state press 3 left. -/
def reentrantDoubleTapSched (t1 t2 t3 : Nat) : List Ev :=
  let p1 := handleHotkeyDown s0 t1 true
  let p2a := doubleTapCancelPhase { p1.1 with pendingSingleTap := false }
  let p3 := handleHotkeyDown p2a.1 t3 true
  let p2b := doubleTapResumePhase p3.1 t2 true
  p1.2 ++ uiFeedbackDown p1.1 ++ p2a.2 ++ p3.2 ++ p2b.2

/-- Backend calls and completions, in execution order, for the mutual-exclusion
invariant. -/
inductive Call where
  | cstart (ok : Bool)
  | cstop
  | chard
  | cdone
deriving DecidableEq

/-- Project one action to its backend call / completion, if any. -/
def callOf : Ev → Option Call
  | .call (.start ok) => some (.cstart ok)
  | .call .stop => some .cstop
  | .call .hardStop => some .chard
  | .deferredCall (.start ok) => some (.cstart ok)
  | .deferredCall .stop => some .cstop
  | .deferredCall .hardStop => some .chard
  | .complete => some .cdone
  | _ => none

/-- The backend-call trace of an action list. -/
def callsOf (tr : List Ev) : List Call :=
  tr.filterMap callOf

/-- How one backend call changes the "a session is non-idle (active or
transcribing)" bit: a successful start opens a session, a graceful stop moves
it to transcribing (still non-idle), a hard stop or a transcription completion
closes it. -/
def nextBusy (b : Bool) : Call → Bool
  | .cstart ok => ok
  | .cstop => true
  | .chard => false
  | .cdone => false

/-- A call trace respects mutual exclusion when every `start()` is issued at a
point where no session is non-idle. -/
def legalStarts : Bool → List Call → Bool
  | _, [] => true
  | b, c :: r =>
    (match c with
     | .cstart _ => !b
     | _ => true) && legalStarts (nextBusy b c) r

/-- Whether some session is non-idle in a controller state. -/
def stateBusy (s : CtrlState) : Bool :=
  match s.svc with
  | some b => b.active || b.transcribing
  | none => false

/-- States in which the backend is never simultaneously active and
transcribing (holds in every reachable state). -/
def okState (s : CtrlState) : Bool :=
  match s.svc with
  | some b => !(b.active && b.transcribing)
  | none => true

/-- Count the (non-deferred) sends of a given notification. -/
def countNotif (n : Notif) (tr : List Ev) : Nat :=
  tr.countP fun e =>
    match e with
    | .send _ m => m == n
    | _ => false

/-- Count occurrences of a given backend call (deferred ones included). -/
def countCall (c : Call) (tr : List Ev) : Nat :=
  (callsOf tr).count c

/-- Hotkey choices appearing in `startHotkeyMonitoring` (`main.ts` 681–818):
the supported modifier keys, the removed `space` key, and anything else. -/
inductive Hotkey where
  | fn
  | optionKey
  | control
  | space
  | other
deriving DecidableEq

/-- The module-level monitoring state of `main.ts`: whether monitoring is
active, which hotkey it was started for, and whether the
`universalKeyService` / `pushToTalkService` objects currently exist
(plus the push-to-talk service's `active` flag, read by
`stopHotkeyMonitoring`). -/
structure MonState where
  isHotkeyMonitoringActive : Bool
  lastActiveHotkey : Option Hotkey
  universalKeyService : Bool
  pushToTalkService : Bool
  pttActive : Bool
deriving DecidableEq

/-- Observable actions of the monitoring lifecycle functions. -/
inductive MonAct where
  | stopKeyService
  | unregisterShortcuts
  | stopPtt
  | createPtt
  | createKeyService
  | startKeyService (k : Hotkey)
  | registerPower
  | scheduleRestart
deriving DecidableEq

/-- `main.ts` 820–857, `stopHotkeyMonitoring`: stop and discard the universal
key service, unregister global shortcuts, stop the push-to-talk service when
it is active, and discard it. (`isHotkeyMonitoringActive` is not reset here.) -/
def stopHotkeyMonitoring (m : MonState) : MonState × List MonAct :=
  ({ m with universalKeyService := false, pushToTalkService := false, pttActive := false },
   (if m.universalKeyService then [MonAct.stopKeyService] else []) ++
   [MonAct.unregisterShortcuts] ++
   (if m.pushToTalkService && m.pttActive then [MonAct.stopPtt] else []))

/-- `main.ts` 681–818, `startHotkeyMonitoring`: if monitoring is already
active with a live key service for the same configured hotkey, return
immediately; otherwise tear down any active monitoring, create a fresh
push-to-talk service, register it with power management, and — for the
supported modifier keys — create and start the universal key service
(`keyStartOk` is whether `universalKeyService.start` reports success),
recording the active hotkey on success. Unsupported keys reset the setting to
`fn` and schedule a delayed restart. -/
def startHotkeyMonitoring (m : MonState) (hk : Hotkey) (keyStartOk : Bool) :
    MonState × List MonAct :=
  if m.isHotkeyMonitoringActive ∧ m.universalKeyService ∧ m.lastActiveHotkey = some hk then
    (m, [])
  else
    let p := if m.isHotkeyMonitoringActive then stopHotkeyMonitoring m else (m, [])
    let m1 := p.1
    let m2 : MonState := { m1 with pushToTalkService := true, pttActive := false }
    let acts := p.2 ++ [MonAct.createPtt, MonAct.registerPower]
    match hk with
    | .fn | .optionKey | .control =>
      if keyStartOk then
        ({ m2 with universalKeyService := true, isHotkeyMonitoringActive := true,
                   lastActiveHotkey := some hk },
         acts ++ [MonAct.createKeyService, MonAct.startKeyService hk, MonAct.registerPower])
      else
        ({ m2 with universalKeyService := false },
         acts ++ [MonAct.createKeyService, MonAct.startKeyService hk])
    | _ =>
      (m2, acts ++ [MonAct.scheduleRestart])

/-- The hands-free-exit schedule of `handleHotkeyDown`: the first press runs
the UI feedback and the first half of the exit branch up to the awaited
`pushToTalkService.stop()`; while that stop is in flight, `mid` further
presses are processed; then the handler resumes with the second half. -/
def handsFreeExitSched (s : CtrlState) (mid : List (Nat × Bool)) : CtrlState × List Ev :=
  let p1 := handsFreeExitBegin s
  let p2 := run p1.1 (mid.map fun q => KEvent.down q.1 q.2)
  let p3 := handsFreeExitFinish p2.1
  (p3.1, uiFeedbackDown s ++ p1.2 ++ p2.2 ++ p3.2)

/-- The `isHandsFreeMode` flag the controller stashes on the backend object,
read off a controller state. -/
def hfFlag (s : CtrlState) : Bool :=
  match s.svc with
  | some b => b.isHandsFreeMode
  | none => false

/-! ## Helper lemmas -/

theorem callsOf_append (l1 l2 : List Ev) :
    callsOf (l1 ++ l2) = callsOf l1 ++ callsOf l2 := by
  simp [callsOf, List.filterMap_append]

theorem countNotif_append (n : Notif) (l1 l2 : List Ev) :
    countNotif n (l1 ++ l2) = countNotif n l1 + countNotif n l2 := by
  simp [countNotif, List.countP_append]

theorem countCall_append (c : Call) (l1 l2 : List Ev) :
    countCall c (l1 ++ l2) = countCall c l1 + countCall c l2 := by
  simp [countCall, callsOf_append, List.count_append]

theorem legalStarts_append (b : Bool) (l1 l2 : List Call) :
    legalStarts b (l1 ++ l2) =
      (legalStarts b l1 && legalStarts (l1.foldl nextBusy b) l2) := by
  induction l1 generalizing b with
  | nil => simp [legalStarts]
  | cons c r ih =>
    cases c <;> simp [legalStarts, ih, Bool.and_assoc]

/-- A key press observed while `pendingHandsFreeStop` is set is dropped at the
top of `handleHotkeyDown` with no state change and no emitted action. -/
theorem down_dropped (s : CtrlState) (t : Nat) (ok : Bool)
    (h : s.pendingHandsFreeStop = true) :
    handleHotkeyDown s t ok = (s, []) := by
  unfold handleHotkeyDown
  simp [h]

theorem handsFreeExitBegin_pending (s : CtrlState) :
    (handsFreeExitBegin s).1.pendingHandsFreeStop = true := by
  unfold handsFreeExitBegin
  cases hs : s.svc with
  | none => rfl
  | some b =>
    by_cases hb : (b.active || b.transcribing) = true <;> simp [hb]

/-- A whole run of key presses from a state with `pendingHandsFreeStop` set is
a no-op. -/
theorem run_downs_dropped (mid : List (Nat × Bool)) (s : CtrlState)
    (h : s.pendingHandsFreeStop = true) :
    run s (mid.map fun q => KEvent.down q.1 q.2) = (s, []) := by
  induction mid with
  | nil => rfl
  | cons q r ih =>
    simp only [List.map_cons, run, step, down_dropped s q.1 q.2 h]
    simp [ih]

/-! ## Claim theorems -/

/-- C9. Start-monitoring idempotence: invoking `startHotkeyMonitoring` while
monitoring is already active (with a live key service) for the same configured
hotkey is a no-op — no teardown, no re-creation of the key or push-to-talk
service, and the monitoring state is unchanged. -/
theorem start_monitoring_idempotent (m : MonState) (hk : Hotkey) (ok : Bool)
    (hact : m.isHotkeyMonitoringActive = true)
    (hkey : m.universalKeyService = true)
    (hsame : m.lastActiveHotkey = some hk) :
    startHotkeyMonitoring m hk ok = (m, []) := by
  unfold startHotkeyMonitoring
  rw [if_pos]
  exact ⟨by simp [hact], by simp [hkey], hsame⟩

/-- Witness for C9: re-invoking start-monitoring with `fn` while already
monitoring `fn` changes nothing. -/
theorem start_monitoring_idempotent_witness :
    startHotkeyMonitoring
      { isHotkeyMonitoringActive := true, lastActiveHotkey := some .fn,
        universalKeyService := true, pushToTalkService := true, pttActive := false }
      .fn true =
      ({ isHotkeyMonitoringActive := true, lastActiveHotkey := some .fn,
         universalKeyService := true, pushToTalkService := true, pttActive := false },
       []) :=
  start_monitoring_idempotent _ _ true rfl rfl rfl

/-- C10 counterexample: the claim says every KeyUp emits `push-to-talk-stop`
to all windows; in fact `push-to-talk-stop` is sent only to the waveform
window — at the concrete idle state `s0` no broadcast of `push-to-talk-stop`
to all windows occurs (while `recording-status{false,false}` is broadcast). -/
theorem keyup_stop_not_broadcast_cex :
    Ev.send Target.all Notif.pttStop ∉ (handleHotkeyUp s0).2
    ∧ Ev.send Target.all (Notif.recStatus false false) ∈ (handleHotkeyUp s0).2 := by
  decide

/-- C10 (amended). Every KeyUp event unconditionally emits
`push-to-talk-stop` and `recording-status{recording:false,active:false}` to
the waveform window and `fn-key-state-change`/`recording-status{false,false}`
to the dashboard and all windows, before any session state is examined: the
first five actions of `handleHotkeyUp` are these sends, for every controller
state — including `Idle` and states where the release is skipped because
hands-free mode or a pending hands-free stop is in effect. -/
theorem keyup_unconditional_notifications (s : CtrlState)
    (hw : s.waveform = true) (hd : s.dashboard = true) :
    (handleHotkeyUp s).2.take 5 =
      [Ev.send .waveform .pttStop, Ev.send .waveform (.recStatus false false),
       Ev.send .dashboard (.fnKeyState false),
       Ev.send .all (.fnKeyState false), Ev.send .all (.recStatus false false)] := by
  unfold handleHotkeyUp
  simp only [hw, hd, if_true]
  split
  · rfl
  · split
    · split <;> simp [List.take]
    · rfl

/-- Witness for C10 (amended): at the idle state `s0` the five unconditional
sends open the KeyUp trace. -/
theorem keyup_unconditional_notifications_witness :
    (handleHotkeyUp s0).2.take 5 =
      [Ev.send .waveform .pttStop, Ev.send .waveform (.recStatus false false),
       Ev.send .dashboard (.fnKeyState false),
       Ev.send .all (.fnKeyState false), Ev.send .all (.recStatus false false)] :=
  keyup_unconditional_notifications s0 rfl rfl

/-- C3. Hands-free exit idempotence: in hands-free mode with an active
recording, the first KeyDown sets `pendingHandsFreeStop` and initiates the
graceful stop; every KeyDown processed while that flag is set is dropped at
the top of the handler with no effect, so for any number of rapid presses
before the stop completes the whole schedule emits exactly one
`dictation-stop` notification and calls `stop()` exactly once. -/
theorem handsfree_exit_idempotent (s : CtrlState) (b : Backend)
    (mid : List (Nat × Bool)) (t : Nat) (ok : Bool)
    (hhf : s.isHandsFreeModeActive = true)
    (hp : s.pendingHandsFreeStop = false)
    (hsvc : s.svc = some b) (hact : b.active = true) (hw : s.waveform = true) :
    handleHotkeyDown s t ok = handsFreeExitSched s []
    ∧ handleHotkeyDown (handsFreeExitBegin s).1 t ok = ((handsFreeExitBegin s).1, [])
    ∧ countNotif .dictationStop (handsFreeExitSched s mid).2 = 1
    ∧ countCall .cstop (handsFreeExitSched s mid).2 = 1 := by
  have hpend := handsFreeExitBegin_pending s
  refine ⟨?_, down_dropped _ t ok hpend, ?_, ?_⟩
  · unfold handleHotkeyDown
    simp [handsFreeExitSched, run, hp, hhf]
  all_goals
  · simp only [handsFreeExitSched]
    rw [run_downs_dropped mid _ hpend]
    unfold handsFreeExitBegin handsFreeExitFinish uiFeedbackDown
    rw [hsvc]
    simp only [hact, Bool.true_or, if_true, hw]
    cases hdash : s.dashboard <;> cases hshow : s.showWaveformSetting <;>
      simp [countNotif_append, countCall_append, countNotif, countCall, callsOf, callOf,
            List.countP_cons, List.count_cons]

/-- Witness for C3: concrete hands-free state with an active recording, two
extra presses racing the stop. -/
theorem handsfree_exit_idempotent_witness :
    (handleHotkeyDown
        { lastFnKeyTime := 100, fnKeyPressed := false, pendingSingleTap := false,
          isHandsFreeModeActive := true, pendingHandsFreeStop := false,
          svc := some { b0 with active := true }, waveform := true,
          dashboard := true, showWaveformSetting := true } 405 true =
      handsFreeExitSched
        { lastFnKeyTime := 100, fnKeyPressed := false, pendingSingleTap := false,
          isHandsFreeModeActive := true, pendingHandsFreeStop := false,
          svc := some { b0 with active := true }, waveform := true,
          dashboard := true, showWaveformSetting := true } [])
    ∧ handleHotkeyDown
        (handsFreeExitBegin
          { lastFnKeyTime := 100, fnKeyPressed := false, pendingSingleTap := false,
            isHandsFreeModeActive := true, pendingHandsFreeStop := false,
            svc := some { b0 with active := true }, waveform := true,
            dashboard := true, showWaveformSetting := true }).1 405 true =
        ((handsFreeExitBegin
          { lastFnKeyTime := 100, fnKeyPressed := false, pendingSingleTap := false,
            isHandsFreeModeActive := true, pendingHandsFreeStop := false,
            svc := some { b0 with active := true }, waveform := true,
            dashboard := true, showWaveformSetting := true }).1, [])
    ∧ countNotif .dictationStop
        (handsFreeExitSched
          { lastFnKeyTime := 100, fnKeyPressed := false, pendingSingleTap := false,
            isHandsFreeModeActive := true, pendingHandsFreeStop := false,
            svc := some { b0 with active := true }, waveform := true,
            dashboard := true, showWaveformSetting := true } [(405, true), (410, true)]).2 = 1
    ∧ countCall .cstop
        (handsFreeExitSched
          { lastFnKeyTime := 100, fnKeyPressed := false, pendingSingleTap := false,
            isHandsFreeModeActive := true, pendingHandsFreeStop := false,
            svc := some { b0 with active := true }, waveform := true,
            dashboard := true, showWaveformSetting := true } [(405, true), (410, true)]).2 = 1 :=
  handsfree_exit_idempotent _ { b0 with active := true } [(405, true), (410, true)]
    405 true rfl rfl rfl rfl rfl

/-- C4. Hard-stop non-blocking: on the double-tap path, the `hardStop()` of
the first optimistic session appears in the handler's trace only as a
deferred (`setImmediate`) action, never as a synchronous call on the
input-handling path, and the new hands-free session's `start()` is still
issued in the same handler (the only wait between the cancel and the start is
the fixed 10 ms buffer, recorded as `Ev.sleep 10`, independent of the old
session's teardown). -/
theorem hard_stop_deferred_nonblocking (s : CtrlState) (b : Backend) (t : Nat) (ok : Bool)
    (hp : s.pendingHandsFreeStop = false)
    (hhf : s.isHandsFreeModeActive = false)
    (hsvc : s.svc = some b)
    (hlast : 0 < s.lastFnKeyTime)
    (hlo : 20 < t - s.lastFnKeyTime) (hhi : t - s.lastFnKeyTime < 600)
    (hguard : (b.active || b.transcribing || b.startedFromSingleTap) = true) :
    Ev.deferredCall .hardStop ∈ (handleHotkeyDown s t ok).2
    ∧ Ev.call .hardStop ∉ (handleHotkeyDown s t ok).2
    ∧ Ev.call (.start ok) ∈ (handleHotkeyDown s t ok).2 := by
  unfold handleHotkeyDown doubleTapBranch doubleTapCancelPhase doubleTapResumePhase uiFeedbackDown
  rw [hsvc]
  cases hw : s.waveform <;> cases hd : s.dashboard <;> cases hss : s.showWaveformSetting <;>
    cases ok <;> simp [hp, hhf, hguard, hlast, hlo, hhi]

/-- Witness for C4: double-tap at Δt = 300 ms over a session flagged
`startedFromSingleTap`. -/
theorem hard_stop_deferred_nonblocking_witness :
    Ev.deferredCall .hardStop ∈
      (handleHotkeyDown
        { lastFnKeyTime := 1000, fnKeyPressed := true, pendingSingleTap := true,
          isHandsFreeModeActive := false, pendingHandsFreeStop := false,
          svc := some { b0 with active := true, startedFromSingleTap := true,
                                recordingStartTime := some 1000 },
          waveform := true, dashboard := true, showWaveformSetting := true } 1300 true).2
    ∧ Ev.call .hardStop ∉
      (handleHotkeyDown
        { lastFnKeyTime := 1000, fnKeyPressed := true, pendingSingleTap := true,
          isHandsFreeModeActive := false, pendingHandsFreeStop := false,
          svc := some { b0 with active := true, startedFromSingleTap := true,
                                recordingStartTime := some 1000 },
          waveform := true, dashboard := true, showWaveformSetting := true } 1300 true).2
    ∧ Ev.call (.start true) ∈
      (handleHotkeyDown
        { lastFnKeyTime := 1000, fnKeyPressed := true, pendingSingleTap := true,
          isHandsFreeModeActive := false, pendingHandsFreeStop := false,
          svc := some { b0 with active := true, startedFromSingleTap := true,
                                recordingStartTime := some 1000 },
          waveform := true, dashboard := true, showWaveformSetting := true } 1300 true).2 :=
  hard_stop_deferred_nonblocking _
    { b0 with active := true, startedFromSingleTap := true, recordingStartTime := some 1000 }
    1300 true rfl rfl rfl (by decide) (by decide) (by decide) rfl

/-- C2. Double-tap classification window: with no hands-free mode or pending
stop in effect and a previous KeyDown recorded, a KeyDown whose successful
`start()` is processed at time `t` enters hands-free mode if and only if the
elapsed time since the recorded press is strictly between 20 ms and 600 ms;
inside the window exactly one `dictation-start` is sent; and the concrete
two-press run at Δt = 300 ms from the initial state creates exactly one
hands-free session: one `dictation-start`, one `push-to-talk-cancel` for the
cancelled first optimistic session, and one `hardStop()`. -/
theorem double_tap_window_classifies (s : CtrlState) (b : Backend) (t : Nat)
    (hp : s.pendingHandsFreeStop = false)
    (hhf : s.isHandsFreeModeActive = false)
    (hsvc : s.svc = some b)
    (hlast : 0 < s.lastFnKeyTime) :
    (((handleHotkeyDown s t true).1.isHandsFreeModeActive = true)
       ↔ (20 < t - s.lastFnKeyTime ∧ t - s.lastFnKeyTime < 600))
    ∧ (20 < t - s.lastFnKeyTime → t - s.lastFnKeyTime < 600 → s.waveform = true →
        countNotif .dictationStart (handleHotkeyDown s t true).2 = 1)
    ∧ (run s0 [.down 1000 true, .down 1300 true]).1.isHandsFreeModeActive = true
    ∧ countNotif .dictationStart (run s0 [.down 1000 true, .down 1300 true]).2 = 1
    ∧ countNotif .pttCancel (run s0 [.down 1000 true, .down 1300 true]).2 = 1
    ∧ countCall .chard (run s0 [.down 1000 true, .down 1300 true]).2 = 1 := by
  refine ⟨?_, ?_, by decide, by decide, by decide, by decide⟩
  · constructor
    · intro h
      by_contra hwin
      revert h
      unfold handleHotkeyDown singleTapBranch
      rw [hsvc]
      have hwinb : (decide (0 < s.lastFnKeyTime) &&
          (decide (t - s.lastFnKeyTime < 600) && decide (20 < t - s.lastFnKeyTime))) = false := by
        rcases Nat.lt_or_ge 20 (t - s.lastFnKeyTime) with h1 | h1
        · rcases Nat.lt_or_ge (t - s.lastFnKeyTime) 600 with h2 | h2
          · exact absurd ⟨h1, h2⟩ hwin
          · simp [Nat.not_lt.mpr h2]
        · simp [Nat.not_lt.mpr h1]
      cases hbb : (b.active || b.transcribing) <;>
        simp [hp, hhf, hwinb, hbb, Bool.and_assoc]
    · rintro ⟨h1, h2⟩
      unfold handleHotkeyDown doubleTapBranch doubleTapCancelPhase doubleTapResumePhase
      rw [hsvc]
      cases hg : (b.active || b.transcribing || b.startedFromSingleTap) <;>
        simp [hp, hhf, hlast, h1, h2, hg]
  · intro h1 h2 hw
    unfold handleHotkeyDown doubleTapBranch doubleTapCancelPhase doubleTapResumePhase uiFeedbackDown
    rw [hsvc]
    by_cases hg : (b.active || b.transcribing || b.startedFromSingleTap) = true
    · cases hd : s.dashboard <;> cases hss : s.showWaveformSetting <;>
        simp [hp, hhf, hlast, h1, h2, hw, hg, countNotif, List.countP_cons, List.countP_append]
    · have hx := hg
      simp only [Bool.or_eq_true, not_or, Bool.not_eq_true] at hx
      obtain ⟨⟨ha, htr⟩, hsf⟩ := hx
      cases hd : s.dashboard <;> cases hss : s.showWaveformSetting <;>
        simp [hp, hhf, hlast, h1, h2, hw, ha, htr, hsf, countNotif,
              List.countP_cons, List.countP_append]

/-- Witness for C2: the window test at Δt = 300 ms from a state with a
recorded press and a running optimistic session. -/
theorem double_tap_window_classifies_witness :
    (((handleHotkeyDown
        { lastFnKeyTime := 1000, fnKeyPressed := true, pendingSingleTap := true,
          isHandsFreeModeActive := false, pendingHandsFreeStop := false,
          svc := some { b0 with active := true, startedFromSingleTap := true },
          waveform := true, dashboard := true, showWaveformSetting := true } 1300 true).1.isHandsFreeModeActive = true)
       ↔ (20 < 1300 - 1000 ∧ 1300 - 1000 < 600))
    ∧ (20 < 1300 - 1000 → 1300 - 1000 < 600 → true = true →
        countNotif .dictationStart
          (handleHotkeyDown
            { lastFnKeyTime := 1000, fnKeyPressed := true, pendingSingleTap := true,
              isHandsFreeModeActive := false, pendingHandsFreeStop := false,
              svc := some { b0 with active := true, startedFromSingleTap := true },
              waveform := true, dashboard := true, showWaveformSetting := true } 1300 true).2 = 1)
    ∧ (run s0 [.down 1000 true, .down 1300 true]).1.isHandsFreeModeActive = true
    ∧ countNotif .dictationStart (run s0 [.down 1000 true, .down 1300 true]).2 = 1
    ∧ countNotif .pttCancel (run s0 [.down 1000 true, .down 1300 true]).2 = 1
    ∧ countCall .chard (run s0 [.down 1000 true, .down 1300 true]).2 = 1 :=
  double_tap_window_classifies _ { b0 with active := true, startedFromSingleTap := true }
    1300 rfl rfl rfl (by decide)

/-- C5 counterexample: two KeyDown events 5 ms apart from the initial state.
The second press is indeed not classified as a double-tap, but it is not a
no-op either: it falls into the re-press branch and hard-cancels the session
begun by the first press (`hardStop()` is called and `push-to-talk-cancel`
is sent), contradicting "neither enters hands-free mode nor cancels or
restarts the session begun by the first KeyDown". -/
theorem bounce_cancels_first_session_cex :
    Ev.call .hardStop ∈ (handleHotkeyDown (run s0 [.down 1000 true]).1 1005 true).2
    ∧ Ev.send .waveform .pttCancel ∈ (handleHotkeyDown (run s0 [.down 1000 true]).1 1005 true).2
    ∧ (handleHotkeyDown (run s0 [.down 1000 true]).1 1005 true).1.isHandsFreeModeActive = false := by
  decide

/-- C5 (amended). Bounce rejection of the double-tap classifier only: two
KeyDown events at most 20 ms apart are never classified as a double-tap — the
second press does not enter hands-free mode and emits no `dictation-start` —
but it still falls through to the normal single-tap handling, which, when the
backend is already active or transcribing, performs the re-press cancel
(`hardStop()` plus a `push-to-talk-cancel` notification) of the session begun
by the first KeyDown. -/
theorem bounce_not_double_tap (s : CtrlState) (b : Backend) (t : Nat) (ok : Bool)
    (hp : s.pendingHandsFreeStop = false)
    (hhf : s.isHandsFreeModeActive = false)
    (hsvc : s.svc = some b)
    (hdt : t - s.lastFnKeyTime ≤ 20) :
    (handleHotkeyDown s t ok).1.isHandsFreeModeActive = false
    ∧ countNotif .dictationStart (handleHotkeyDown s t ok).2 = 0
    ∧ ((b.active || b.transcribing) = true →
        Ev.call .hardStop ∈ (handleHotkeyDown s t ok).2) := by
  have hwinb : decide (20 < t - s.lastFnKeyTime) = false := by
    simp [Nat.not_lt.mpr hdt]
  unfold handleHotkeyDown singleTapBranch uiFeedbackDown
  rw [hsvc]
  refine ⟨?_, ?_, ?_⟩
  · cases hbb : (b.active || b.transcribing) <;> cases ok <;>
      simp [hp, hhf, hwinb, hbb]
  · cases hbb : (b.active || b.transcribing) <;>
      cases hw : s.waveform <;> cases hd : s.dashboard <;> cases hss : s.showWaveformSetting <;>
      cases ok <;>
      simp [hp, hhf, hwinb, hbb, hw, countNotif, List.countP_cons, List.countP_append]
  · intro hbb
    cases hw : s.waveform <;> cases hd : s.dashboard <;> cases hss : s.showWaveformSetting <;>
      simp [hp, hhf, hwinb, hbb, hw]

/-- Witness for C5 (amended): Δt = 5 ms over an active session. -/
theorem bounce_not_double_tap_witness :
    (handleHotkeyDown
        { lastFnKeyTime := 1000, fnKeyPressed := true, pendingSingleTap := true,
          isHandsFreeModeActive := false, pendingHandsFreeStop := false,
          svc := some { b0 with active := true, startedFromSingleTap := true },
          waveform := true, dashboard := true, showWaveformSetting := true } 1005 true).1.isHandsFreeModeActive = false
    ∧ countNotif .dictationStart
        (handleHotkeyDown
          { lastFnKeyTime := 1000, fnKeyPressed := true, pendingSingleTap := true,
            isHandsFreeModeActive := false, pendingHandsFreeStop := false,
            svc := some { b0 with active := true, startedFromSingleTap := true },
            waveform := true, dashboard := true, showWaveformSetting := true } 1005 true).2 = 0
    ∧ ((({ b0 with active := true, startedFromSingleTap := true } : Backend).active ||
         ({ b0 with active := true, startedFromSingleTap := true } : Backend).transcribing) = true →
        Ev.call .hardStop ∈
          (handleHotkeyDown
            { lastFnKeyTime := 1000, fnKeyPressed := true, pendingSingleTap := true,
              isHandsFreeModeActive := false, pendingHandsFreeStop := false,
              svc := some { b0 with active := true, startedFromSingleTap := true },
              waveform := true, dashboard := true, showWaveformSetting := true } 1005 true).2) := by
  have h := bounce_not_double_tap
    { lastFnKeyTime := 1000, fnKeyPressed := true, pendingSingleTap := true,
      isHandsFreeModeActive := false, pendingHandsFreeStop := false,
      svc := some { b0 with active := true, startedFromSingleTap := true },
      waveform := true, dashboard := true, showWaveformSetting := true }
    { b0 with active := true, startedFromSingleTap := true } 1005 true rfl rfl rfl (by decide)
  exact ⟨h.1, h.2.1, fun _ => h.2.2 (by decide)⟩

/-- C6. Re-press cancels an active push-to-talk session: a KeyDown outside
the double-tap window, with hands-free mode off and no pending hands-free
stop, while the backend is active or transcribing, issues a synchronous
`hardStop()`, sends the `push-to-talk-cancel` notification, and leaves no
session non-idle (the controller is back to Idle). -/
theorem repress_cancels_active_session (s : CtrlState) (b : Backend) (t : Nat) (ok : Bool)
    (hp : s.pendingHandsFreeStop = false)
    (hhf : s.isHandsFreeModeActive = false)
    (hsvc : s.svc = some b)
    (hbusy : (b.active || b.transcribing) = true)
    (hwin : ¬(0 < s.lastFnKeyTime ∧ 20 < t - s.lastFnKeyTime ∧ t - s.lastFnKeyTime < 600)) :
    Ev.call .hardStop ∈ (handleHotkeyDown s t ok).2
    ∧ (s.waveform = true → Ev.send .waveform .pttCancel ∈ (handleHotkeyDown s t ok).2)
    ∧ stateBusy (handleHotkeyDown s t ok).1 = false := by
  have hwinb : (decide (0 < s.lastFnKeyTime) &&
      (decide (t - s.lastFnKeyTime < 600) && decide (20 < t - s.lastFnKeyTime))) = false := by
    by_cases h1 : 0 < s.lastFnKeyTime
    · by_cases h2 : 20 < t - s.lastFnKeyTime
      · by_cases h3 : t - s.lastFnKeyTime < 600
        · exact absurd ⟨h1, h2, h3⟩ hwin
        · simp [h3]
      · simp [h2]
    · simp [h1]
  unfold handleHotkeyDown singleTapBranch uiFeedbackDown stateBusy
  rw [hsvc]
  refine ⟨?_, ?_, ?_⟩
  · cases hw : s.waveform <;> cases hd : s.dashboard <;> cases hss : s.showWaveformSetting <;>
      simp [hp, hhf, hwinb, hbusy, Bool.and_assoc]
  · intro hw
    cases hd : s.dashboard <;> cases hss : s.showWaveformSetting <;>
      simp [hp, hhf, hwinb, hbusy, hw, Bool.and_assoc]
  · cases hw : s.waveform <;> cases hd : s.dashboard <;> cases hss : s.showWaveformSetting <;>
      simp [hp, hhf, hwinb, hbusy, Bool.and_assoc]

/-- Witness for C6: a re-press 700 ms after the first press of an active
session. -/
theorem repress_cancels_active_session_witness :
    Ev.call .hardStop ∈
      (handleHotkeyDown
        { lastFnKeyTime := 1000, fnKeyPressed := true, pendingSingleTap := false,
          isHandsFreeModeActive := false, pendingHandsFreeStop := false,
          svc := some { b0 with active := true, recordingStartTime := some 1000 },
          waveform := true, dashboard := true, showWaveformSetting := true } 1700 true).2
    ∧ (true = true → Ev.send .waveform .pttCancel ∈
        (handleHotkeyDown
          { lastFnKeyTime := 1000, fnKeyPressed := true, pendingSingleTap := false,
            isHandsFreeModeActive := false, pendingHandsFreeStop := false,
            svc := some { b0 with active := true, recordingStartTime := some 1000 },
            waveform := true, dashboard := true, showWaveformSetting := true } 1700 true).2)
    ∧ stateBusy
        (handleHotkeyDown
          { lastFnKeyTime := 1000, fnKeyPressed := true, pendingSingleTap := false,
            isHandsFreeModeActive := false, pendingHandsFreeStop := false,
            svc := some { b0 with active := true, recordingStartTime := some 1000 },
            waveform := true, dashboard := true, showWaveformSetting := true } 1700 true).1 = false :=
  repress_cancels_active_session _ { b0 with active := true, recordingStartTime := some 1000 }
    1700 true rfl rfl rfl rfl (by decide)

/-- C7. Graceful stop on key release is guarded by a recorded start time:
with hands-free mode off and no pending hands-free stop, `handleHotkeyUp`
issues the backend's graceful `stop()` if and only if the backend is active
and has a recorded `recordingStartTime`; when it does, the
`push-to-talk-stop` notification accompanies it. A release with no recorded
start time never calls `stop()`. -/
theorem keyup_stop_guarded_by_start_time (s : CtrlState) (b : Backend)
    (hhf : s.isHandsFreeModeActive = false)
    (hp : s.pendingHandsFreeStop = false)
    (hsvc : s.svc = some b) :
    (Ev.call .stop ∈ (handleHotkeyUp s).2
      ↔ (b.active = true ∧ b.recordingStartTime.isSome = true))
    ∧ ((b.active && b.recordingStartTime.isSome) = true → s.waveform = true →
        countNotif .pttStop (handleHotkeyUp s).2 = 2) := by
  unfold handleHotkeyUp
  rw [hsvc]
  constructor
  · cases hba : b.active <;> cases hrt : b.recordingStartTime.isSome <;>
      cases hw : s.waveform <;> cases hd : s.dashboard <;>
        simp [hp, hhf, hba, hrt, hw]
  · intro hg hw
    have hba : b.active = true := by
      cases hx : b.active <;> simp [hx] at hg ⊢
    have hrt : b.recordingStartTime.isSome = true := by
      cases hx : b.recordingStartTime.isSome <;> simp [hx, hba] at hg ⊢
    cases hd : s.dashboard <;>
      simp [hp, hhf, hba, hrt, hw, countNotif, List.countP_cons, List.countP_append]

/-- Witness for C7: release of an active recording with a recorded start
time. -/
theorem keyup_stop_guarded_by_start_time_witness :
    (Ev.call .stop ∈
        (handleHotkeyUp
          { lastFnKeyTime := 1000, fnKeyPressed := true, pendingSingleTap := true,
            isHandsFreeModeActive := false, pendingHandsFreeStop := false,
            svc := some { b0 with active := true, recordingStartTime := some 1000 },
            waveform := true, dashboard := true, showWaveformSetting := true }).2
      ↔ (({ b0 with active := true, recordingStartTime := some 1000 } : Backend).active = true
         ∧ ({ b0 with active := true, recordingStartTime := some 1000 } : Backend).recordingStartTime.isSome = true))
    ∧ ((({ b0 with active := true, recordingStartTime := some 1000 } : Backend).active &&
        ({ b0 with active := true, recordingStartTime := some 1000 } : Backend).recordingStartTime.isSome) = true →
        true = true →
        countNotif .pttStop
          (handleHotkeyUp
            { lastFnKeyTime := 1000, fnKeyPressed := true, pendingSingleTap := true,
              isHandsFreeModeActive := false, pendingHandsFreeStop := false,
              svc := some { b0 with active := true, recordingStartTime := some 1000 },
              waveform := true, dashboard := true, showWaveformSetting := true }).2 = 2) :=
  keyup_stop_guarded_by_start_time _ { b0 with active := true, recordingStartTime := some 1000 }
    rfl rfl rfl

/-- C8. Backend start failure recovers to Idle: `handleHotkeyDown` is a total
function (every failure is caught locally, nothing escapes the handler), and
when the `start()` issued by a press rejects: on the hands-free (double-tap)
path the hands-free flags are cleared and `dictation-stop` is sent; on the
single-tap path the deferred `.catch` sends `push-to-talk-cancel` (when the
waveform window exists) and no session is left non-idle. -/
theorem start_failure_recovers_idle (s : CtrlState) (b : Backend) (t : Nat)
    (hp : s.pendingHandsFreeStop = false)
    (hhf : s.isHandsFreeModeActive = false)
    (hsvc : s.svc = some b) :
    (0 < s.lastFnKeyTime → 20 < t - s.lastFnKeyTime → t - s.lastFnKeyTime < 600 →
      ((handleHotkeyDown s t false).1.isHandsFreeModeActive = false
       ∧ hfFlag (handleHotkeyDown s t false).1 = false
       ∧ (s.waveform = true →
           Ev.send .waveform .dictationStop ∈ (handleHotkeyDown s t false).2)))
    ∧ ((b.active || b.transcribing) = false →
        ¬(0 < s.lastFnKeyTime ∧ 20 < t - s.lastFnKeyTime ∧ t - s.lastFnKeyTime < 600) →
        ((s.waveform = true →
           Ev.deferredSend .waveform .pttCancel ∈ (handleHotkeyDown s t false).2)
         ∧ stateBusy (handleHotkeyDown s t false).1 = false)) := by
  constructor
  · intro h1 h2 h3
    unfold handleHotkeyDown doubleTapBranch doubleTapCancelPhase doubleTapResumePhase hfFlag
    rw [hsvc]
    by_cases hg : (b.active || b.transcribing || b.startedFromSingleTap) = true
    · cases hw : s.waveform <;>
        simp [hp, hhf, h1, h2, h3, hg, hw]
    · have hx := hg
      simp only [Bool.or_eq_true, not_or, Bool.not_eq_true] at hx
      obtain ⟨⟨ha, htr⟩, hsf⟩ := hx
      cases hw : s.waveform <;>
        simp [hp, hhf, h1, h2, h3, ha, htr, hsf, hw]
  · intro hbb hwin
    have hwinb : (decide (0 < s.lastFnKeyTime) &&
        (decide (t - s.lastFnKeyTime < 600) && decide (20 < t - s.lastFnKeyTime))) = false := by
      by_cases h1 : 0 < s.lastFnKeyTime
      · by_cases h2 : 20 < t - s.lastFnKeyTime
        · by_cases h3 : t - s.lastFnKeyTime < 600
          · exact absurd ⟨h1, h2, h3⟩ hwin
          · simp [h3]
        · simp [h2]
      · simp [h1]
    unfold handleHotkeyDown singleTapBranch uiFeedbackDown stateBusy
    rw [hsvc]
    constructor
    · intro hw
      cases hd : s.dashboard <;> cases hss : s.showWaveformSetting <;>
        simp [hp, hhf, hwinb, hbb, hw, Bool.and_assoc]
    · cases hw : s.waveform <;> cases hd : s.dashboard <;> cases hss : s.showWaveformSetting <;>
        simp [hp, hhf, hwinb, hbb, Bool.and_assoc, started]

/-- Witness for C8: a double-tap at Δt = 300 ms whose hands-free `start()`
rejects. -/
theorem start_failure_recovers_idle_witness :
    (0 < (1000 : Nat) → 20 < 1300 - (1000 : Nat) → 1300 - (1000 : Nat) < 600 →
      ((handleHotkeyDown
          { lastFnKeyTime := 1000, fnKeyPressed := true, pendingSingleTap := true,
            isHandsFreeModeActive := false, pendingHandsFreeStop := false,
            svc := some { b0 with active := true, startedFromSingleTap := true },
            waveform := true, dashboard := true, showWaveformSetting := true } 1300 false).1.isHandsFreeModeActive = false
       ∧ hfFlag
          (handleHotkeyDown
            { lastFnKeyTime := 1000, fnKeyPressed := true, pendingSingleTap := true,
              isHandsFreeModeActive := false, pendingHandsFreeStop := false,
              svc := some { b0 with active := true, startedFromSingleTap := true },
              waveform := true, dashboard := true, showWaveformSetting := true } 1300 false).1 = false
       ∧ (true = true →
           Ev.send .waveform .dictationStop ∈
             (handleHotkeyDown
               { lastFnKeyTime := 1000, fnKeyPressed := true, pendingSingleTap := true,
                 isHandsFreeModeActive := false, pendingHandsFreeStop := false,
                 svc := some { b0 with active := true, startedFromSingleTap := true },
                 waveform := true, dashboard := true, showWaveformSetting := true } 1300 false).2)))
    ∧ ((({ b0 with active := true, startedFromSingleTap := true } : Backend).active ||
        ({ b0 with active := true, startedFromSingleTap := true } : Backend).transcribing) = false →
        ¬(0 < (1000 : Nat) ∧ 20 < 1300 - (1000 : Nat) ∧ 1300 - (1000 : Nat) < 600) →
        ((true = true →
           Ev.deferredSend .waveform .pttCancel ∈
             (handleHotkeyDown
               { lastFnKeyTime := 1000, fnKeyPressed := true, pendingSingleTap := true,
                 isHandsFreeModeActive := false, pendingHandsFreeStop := false,
                 svc := some { b0 with active := true, startedFromSingleTap := true },
                 waveform := true, dashboard := true, showWaveformSetting := true } 1300 false).2)
         ∧ stateBusy
             (handleHotkeyDown
               { lastFnKeyTime := 1000, fnKeyPressed := true, pendingSingleTap := true,
                 isHandsFreeModeActive := false, pendingHandsFreeStop := false,
                 svc := some { b0 with active := true, startedFromSingleTap := true },
                 waveform := true, dashboard := true, showWaveformSetting := true } 1300 false).1 = false)) :=
  start_failure_recovers_idle
    { lastFnKeyTime := 1000, fnKeyPressed := true, pendingSingleTap := true,
      isHandsFreeModeActive := false, pendingHandsFreeStop := false,
      svc := some { b0 with active := true, startedFromSingleTap := true },
      waveform := true, dashboard := true, showWaveformSetting := true }
    { b0 with active := true, startedFromSingleTap := true }
    1300 rfl rfl rfl

/-! ## Mutual exclusion machinery (C1) -/

theorem callsOf_ui (s : CtrlState) : callsOf (uiFeedbackDown s) = [] := by
  unfold uiFeedbackDown
  split_ifs <;> rfl

/-- Call bookkeeping for the hands-free exit path (begin then finish). -/
theorem handsFreeExit_calls (s : CtrlState) (h : okState s = true) :
    legalStarts (stateBusy s)
      (callsOf ((handsFreeExitBegin s).2 ++ (handsFreeExitFinish (handsFreeExitBegin s).1).2)) = true
    ∧ (callsOf ((handsFreeExitBegin s).2 ++ (handsFreeExitFinish (handsFreeExitBegin s).1).2)).foldl
        nextBusy (stateBusy s) = stateBusy (handsFreeExitFinish (handsFreeExitBegin s).1).1
    ∧ okState (handsFreeExitFinish (handsFreeExitBegin s).1).1 = true := by
  cases hsvc : s.svc with
  | none =>
    cases hw : s.waveform <;>
      simp_all [handsFreeExitBegin, handsFreeExitFinish, callsOf, callOf,
                legalStarts, nextBusy, stateBusy, okState]
  | some b =>
    cases ha : b.active <;> cases htr : b.transcribing <;> cases hw : s.waveform <;>
      simp_all [handsFreeExitBegin, handsFreeExitFinish, callsOf, callOf,
                legalStarts, nextBusy, stateBusy, okState, stopGraceful]

/-- Call bookkeeping for the double-tap branch. -/
theorem doubleTap_calls (s : CtrlState) (t : Nat) (ok : Bool) (h : okState s = true) :
    legalStarts (stateBusy s) (callsOf (doubleTapBranch s t ok).2) = true
    ∧ (callsOf (doubleTapBranch s t ok).2).foldl nextBusy (stateBusy s)
        = stateBusy (doubleTapBranch s t ok).1
    ∧ okState (doubleTapBranch s t ok).1 = true := by
  cases hsvc : s.svc with
  | none =>
    cases hw : s.waveform <;> cases hss : s.showWaveformSetting <;> cases ok <;>
      simp_all [doubleTapBranch, doubleTapCancelPhase, doubleTapResumePhase, callsOf, callOf,
                legalStarts, nextBusy, stateBusy, okState]
  | some b =>
    cases ha : b.active <;> cases htr : b.transcribing <;>
      cases hsf : b.startedFromSingleTap <;>
      cases hw : s.waveform <;> cases hss : s.showWaveformSetting <;> cases ok <;>
        simp_all [doubleTapBranch, doubleTapCancelPhase, doubleTapResumePhase, callsOf, callOf,
                  legalStarts, nextBusy, stateBusy, okState,
                  hardStopped, started]

/-- Call bookkeeping for the single-tap branch. -/
theorem singleTap_calls (s : CtrlState) (t : Nat) (ok : Bool) (h : okState s = true) :
    legalStarts (stateBusy s) (callsOf (singleTapBranch s t ok).2) = true
    ∧ (callsOf (singleTapBranch s t ok).2).foldl nextBusy (stateBusy s)
        = stateBusy (singleTapBranch s t ok).1
    ∧ okState (singleTapBranch s t ok).1 = true := by
  cases hsvc : s.svc with
  | none =>
    cases hw : s.waveform <;> cases hd : s.dashboard <;>
      cases hss : s.showWaveformSetting <;> cases ok <;>
      simp_all [singleTapBranch, callsOf, callOf, legalStarts, nextBusy, stateBusy, okState]
  | some b =>
    cases ha : b.active <;> cases htr : b.transcribing <;>
      cases hw : s.waveform <;> cases hd : s.dashboard <;>
      cases hss : s.showWaveformSetting <;> cases ok <;>
        simp_all [singleTapBranch, callsOf, callOf, legalStarts, nextBusy, stateBusy, okState,
                  started]

/-- Call bookkeeping for a whole `handleHotkeyDown` step. -/
theorem down_calls (s : CtrlState) (t : Nat) (ok : Bool) (h : okState s = true) :
    legalStarts (stateBusy s) (callsOf (handleHotkeyDown s t ok).2) = true
    ∧ (callsOf (handleHotkeyDown s t ok).2).foldl nextBusy (stateBusy s)
        = stateBusy (handleHotkeyDown s t ok).1
    ∧ okState (handleHotkeyDown s t ok).1 = true := by
  unfold handleHotkeyDown
  by_cases hp : s.pendingHandsFreeStop = true
  · simpa [hp, callsOf, legalStarts] using h
  · by_cases hhf : s.isHandsFreeModeActive = true
    · have hx := handsFreeExit_calls s h
      simpa [hp, hhf, callsOf_append, callsOf_ui, List.foldl_append] using hx
    · by_cases hwin : (decide (0 < s.lastFnKeyTime) && decide (t - s.lastFnKeyTime < 600) &&
          decide (20 < t - s.lastFnKeyTime)) = true
      · have hx := doubleTap_calls { s with pendingSingleTap := false } t ok h
        simpa [hp, hhf, hwin, callsOf_append, callsOf_ui, List.foldl_append] using hx
      · have hx := singleTap_calls { s with pendingSingleTap := false } t ok h
        simpa [hp, hhf, hwin, callsOf_append, callsOf_ui, List.foldl_append] using hx

/-- Call bookkeeping for a `handleHotkeyUp` step. -/
theorem up_calls (s : CtrlState) (h : okState s = true) :
    legalStarts (stateBusy s) (callsOf (handleHotkeyUp s).2) = true
    ∧ (callsOf (handleHotkeyUp s).2).foldl nextBusy (stateBusy s)
        = stateBusy (handleHotkeyUp s).1
    ∧ okState (handleHotkeyUp s).1 = true := by
  cases hsvc : s.svc with
  | none =>
    cases hw : s.waveform <;> cases hd : s.dashboard <;>
      cases hhf : s.isHandsFreeModeActive <;> cases hpp : s.pendingHandsFreeStop <;>
      simp_all [handleHotkeyUp, callsOf, callOf, legalStarts, nextBusy, stateBusy, okState]
  | some b =>
    cases ha : b.active <;> cases htr : b.transcribing <;>
      cases hrt : b.recordingStartTime <;>
      cases hw : s.waveform <;> cases hd : s.dashboard <;>
      cases hhf : s.isHandsFreeModeActive <;> cases hpp : s.pendingHandsFreeStop <;>
        simp_all [handleHotkeyUp, callsOf, callOf, legalStarts, nextBusy, stateBusy, okState,
                  stopGraceful]

/-- Call bookkeeping for a transcription-completed step. -/
theorem done_calls (s : CtrlState) (h : okState s = true) :
    legalStarts (stateBusy s) (callsOf (transcriptionDone s).2) = true
    ∧ (callsOf (transcriptionDone s).2).foldl nextBusy (stateBusy s)
        = stateBusy (transcriptionDone s).1
    ∧ okState (transcriptionDone s).1 = true := by
  cases hsvc : s.svc with
  | none =>
    simp_all [transcriptionDone, callsOf, legalStarts, stateBusy, okState]
  | some b =>
    cases ha : b.active <;> cases htr : b.transcribing <;>
      simp_all [transcriptionDone, callsOf, callOf, legalStarts, nextBusy, stateBusy, okState]

/-- Call bookkeeping for one serialized controller step. -/
theorem step_calls (s : CtrlState) (e : KEvent) (h : okState s = true) :
    legalStarts (stateBusy s) (callsOf (step s e).2) = true
    ∧ (callsOf (step s e).2).foldl nextBusy (stateBusy s) = stateBusy (step s e).1
    ∧ okState (step s e).1 = true := by
  cases e with
  | down t ok => exact down_calls s t ok h
  | up => exact up_calls s h
  | done => exact done_calls s h

/-- Call bookkeeping for a whole run. -/
theorem run_calls (es : List KEvent) : ∀ s : CtrlState, okState s = true →
    legalStarts (stateBusy s) (callsOf (run s es).2) = true
    ∧ (callsOf (run s es).2).foldl nextBusy (stateBusy s) = stateBusy (run s es).1
    ∧ okState (run s es).1 = true := by
  induction es with
  | nil => intro s h; exact ⟨rfl, rfl, h⟩
  | cons e es ih =>
    intro s h
    obtain ⟨l1, f1, o1⟩ := step_calls s e h
    obtain ⟨l2, f2, o2⟩ := ih (step s e).1 o1
    have hrun : run s (e :: es) =
        ((run (step s e).1 es).1, (step s e).2 ++ (run (step s e).1 es).2) := rfl
    rw [hrun]
    simp only [callsOf_append, List.foldl_append, legalStarts_append, f1]
    exact ⟨by simp [l1, l2], f2, o2⟩

/-- C1 counterexample: the mutual-exclusion invariant fails on the real
asynchronous handler. In the schedule `t1 = 1000, t2 = 1300, t3 = 1305` —
press 2 is a double-tap and press 3 arrives during press 2's awaited 10 ms
buffer — press 3 re-enters the handler, still sees `lastFnKeyTime = 1000`
and `isHandsFreeModeActive = false` (both are updated only after the buffer),
takes the double-tap branch and issues `start()`; press 2's resumed
continuation then issues a second `start()` with no intervening stop, so a
new session's `start()` is issued while the previous session is non-idle:
the call trace is `[start, hardStop, start, start]` and violates
`legalStarts`. The last conjuncts certify press 2 really reaches the
cancellation phase (no pending stop, not hands-free, recorded press,
non-idle backend). -/
theorem reentrant_double_start_cex :
    legalStarts (stateBusy s0) (callsOf (reentrantDoubleTapSched 1000 1300 1305)) = false
    ∧ callsOf (reentrantDoubleTapSched 1000 1300 1305) =
        [Call.cstart true, Call.chard, Call.cstart true, Call.cstart true]
    ∧ countCall .cstop (reentrantDoubleTapSched 1000 1300 1305) = 0
    ∧ (handleHotkeyDown s0 1000 true).1.pendingHandsFreeStop = false
    ∧ (handleHotkeyDown s0 1000 true).1.isHandsFreeModeActive = false
    ∧ (handleHotkeyDown s0 1000 true).1.lastFnKeyTime = 1000
    ∧ stateBusy (handleHotkeyDown s0 1000 true).1 = true := by
  decide

/-- C1 (amended). Mutual exclusion under serialized event processing: for
every sequence of key events each of which is processed to completion —
including the handler's awaited continuations — before the next one is
delivered, the execution-order backend-call trace never issues a `start()`
while a session is still non-idle (active or transcribing): every new
session's `start()` is issued only after the previous session has been closed
by a hard stop or by a graceful stop's transcription completion, i.e. at most
one recording session is non-idle at any instant. (Without the serialization
premise the invariant fails: a press delivered during the double-tap branch's
awaited 10 ms buffer can re-enter the handler and lead to a second `start()`
while a session is non-idle.) -/
theorem mutual_exclusion_of_sessions (es : List KEvent) :
    legalStarts (stateBusy s0) (callsOf (run s0 es).2) = true :=
  (run_calls es s0 rfl).1
